import Mathlib

/-!
Verification development for the two AI-service adapters of this repository:

* `src/python/semantic_kernel/connectors/ai/google_palm/services/gp_chat_completion.py`
  (class `GooglePalmChatCompletion`)
* `src/python/semantic_kernel/connectors/ai/hugging_face/services/hf_text_completion.py`
  (class `HuggingFaceTextCompletion`)

The Python code is shallowly embedded: each adapter method becomes a pure
Lean function.  The third-party backends (`google.generativeai`, the
`transformers` pipeline) are modelled as records of fallible functions, and
every embedded method additionally returns the ordered list of backend calls
it performed, so that properties of the form "fails before any backend call
is attempted" are expressible.  Python exceptions become an explicit error
type; mutation of `self._message_history` becomes explicit state passing.
Floating-point sampling parameters (temperature, top_p, penalties) are only
ever passed through to the backend, never inspected, so they are represented
by opaque integer stand-ins.
-/

/-- Error codes of the framework-level `AIException`
(`semantic_kernel.connectors.ai.ai_exception.AIException.ErrorCodes`);
only the codes used by the two source files are modelled. -/
inductive ErrorCodes where
  | InvalidRequest
  | InvalidConfiguration
  | ServiceError
deriving DecidableEq, Repr

/-- An opaque exception raised by a backend SDK (anything caught by the
Python `except Exception` clauses). -/
structure BackendExn where
  msg : String
deriving DecidableEq, Repr

/-- The exceptions the embedded adapter methods can propagate to a caller.

* `valueError` models the built-in `ValueError` raised for absent settings;
* `aiException code msg cause` models
  `AIException(AIException.ErrorCodes.<code>, msg, cause)`;
* `aiExceptionMsgFirst msg cause` models the Hugging Face call
  `AIException("Hugging Face completion failed", e)`, whose first positional
  argument is a message string rather than an `ErrorCodes` member;
* `permissionError msg cause` models the built-in `PermissionError` raised
  when `palm.configure` fails (gp_chat_completion.py lines 184-188);
* `notImplementedError` models the built-in `NotImplementedError` raised by
  the PaLM streaming methods. -/
inductive AdapterError where
  | valueError (msg : String)
  | aiException (code : ErrorCodes) (msg : String) (cause : Option BackendExn)
  | aiExceptionMsgFirst (msg : String) (cause : BackendExn)
  | permissionError (msg : String) (cause : BackendExn)
  | notImplementedError (msg : String)
deriving DecidableEq, Repr

/-- `ChatRequestSettings` (framework class, constructed at
gp_chat_completion.py lines 93-101).  Float-valued fields are opaque
integer stand-ins; only `max_tokens` and `number_of_responses` are ever
inspected by the embedded code. -/
structure ChatRequestSettings where
  temperature : Int
  top_p : Int
  presence_penalty : Int
  frequency_penalty : Int
  max_tokens : Int
  number_of_responses : Nat
  token_selection_biases : List (Int × Int)
deriving DecidableEq, Repr

/-- `CompleteRequestSettings` (framework class); the seven fields read by
the two source files. -/
structure CompleteRequestSettings where
  temperature : Int
  top_p : Int
  presence_penalty : Int
  frequency_penalty : Int
  max_tokens : Int
  number_of_responses : Nat
  token_selection_biases : List (Int × Int)
deriving DecidableEq, Repr

/-- A `google.generativeai.types.ChatResponse`.  A candidate is the value of
`candidate["output"]`, which may be Python `None`; `last` is the
`response.last` attribute, which may also be `None`. -/
structure ChatResponse where
  candidates : List (Option String)
  last : Option String
deriving DecidableEq, Repr

/-- The keyword arguments of the `palm.chat(...)` call at
gp_chat_completion.py lines 199-208, in source order.  `examples` and
`prompt` are opaque pass-through values. -/
structure PalmChatArgs where
  model : String
  context : Option String
  examples : Option Unit
  temperature : Int
  candidate_count : Nat
  top_p : Int
  prompt : Option Unit
  messages : String
deriving DecidableEq, Repr

/-- One observable call into the `google.generativeai` backend. -/
inductive PalmCall where
  | configure (api_key : String)
  | chat (args : PalmChatArgs)
  | reply (history : ChatResponse) (message : String)
deriving DecidableEq, Repr

/-- The Google PaLM backend (`google.generativeai`) as an opaque capability
provider: `configure` may reject the key, `chat` starts a conversation,
`reply h m` is `h.reply(m)` on a previous response object. -/
structure PalmBackend where
  configure : String → Except BackendExn Unit
  chat : PalmChatArgs → Except BackendExn ChatResponse
  reply : ChatResponse → String → Except BackendExn ChatResponse

/-- The mutable fields of a `GooglePalmChatCompletion` instance:
`api_key`, `ai_model_id` and the private `_message_history`. -/
structure GPState where
  api_key : String
  ai_model_id : String
  message_history : Option ChatResponse
deriving DecidableEq, Repr

/-- A completion result: a single string or a list of strings
(`Union[str, List[str]]`). -/
abbrev CompletionResult := Sum String (List String)

/-- Context assembly, gp_chat_completion.py lines 189-196: starting from
the empty string, if there is more than one message, fold every message
whose index is strictly below `len(messages) - 1`; a message with role
"system" contributes its text plus a newline, any other role contributes
"role: text" plus a newline. -/
def assembleContext (messages : List (String × String)) : String :=
  if messages.length > 1 then
    (messages.take (messages.length - 1)).foldl
      (fun ctx rm =>
        ctx ++ (if rm.1 = "system" then rm.2 ++ "\n" else rm.1 ++ ": " ++ rm.2 ++ "\n"))
      ""
  else ""

/-- The local variable `context` as it stands at the `palm.chat` call:
it is replaced by the assembled context exactly when the conversation has
not started and no explicit context was supplied
(gp_chat_completion.py lines 189-196). -/
def palmContext (st : GPState) (messages : List (String × String))
    (context? : Option String) : Option String :=
  match st.message_history, context? with
  | none, none => some (assembleContext messages)
  | _, _ => context?

/-- The argument record of the `palm.chat` call at
gp_chat_completion.py lines 199-208: model id, the (possibly assembled)
context, pass-through examples, temperature, candidate count, top_p,
pass-through prompt, and the text of the final message. -/
def palmChatArgsOf (st : GPState) (messages : List (String × String))
    (rs : ChatRequestSettings) (context? : Option String)
    (examples : Option Unit) (prompt : Option Unit) : PalmChatArgs :=
  { model := st.ai_model_id
    context := palmContext st messages context?
    examples := examples
    temperature := rs.temperature
    candidate_count := rs.number_of_responses
    top_p := rs.top_p
    prompt := prompt
    messages := (messages.getLastD ("", "")).2 }

/-- `GooglePalmChatCompletion._send_chat_request`
(gp_chat_completion.py lines 123-220).  Returns the result (the response
or the propagated exception), the state after the call, and the ordered
list of backend calls performed. -/
def GooglePalmChatCompletion.send_chat_request (be : PalmBackend) (st : GPState)
    (messages : List (String × String)) (settings? : Option ChatRequestSettings)
    (context? : Option String) (examples : Option Unit) (prompt : Option Unit) :
    Except AdapterError ChatResponse × GPState × List PalmCall :=
  match settings? with
  | none => (Except.error (AdapterError.valueError "The request settings cannot be None"), st, [])
  | some rs =>
    if rs.max_tokens < 1 then
      (Except.error (AdapterError.aiException ErrorCodes.InvalidRequest
        ("The max tokens must be greater than 0, but was " ++ toString rs.max_tokens) none),
       st, [])
    else if messages.length ≤ 0 then
      (Except.error (AdapterError.aiException ErrorCodes.InvalidRequest
        "To complete a chat you need at least one message" none), st, [])
    else if (messages.getLastD ("", "")).1 ≠ "user" then
      (Except.error (AdapterError.aiException ErrorCodes.InvalidRequest
        "The last message must be from the user" none), st, [])
    else
      match be.configure st.api_key with
      | Except.error ex =>
        (Except.error (AdapterError.permissionError
          "Google PaLM service failed to configure. Invalid API key provided." ex),
         st, [PalmCall.configure st.api_key])
      | Except.ok _ =>
        match st.message_history with
        | none =>
          match be.chat (palmChatArgsOf st messages rs context? examples prompt) with
          | Except.ok response =>
            (Except.ok response, { st with message_history := some response },
             [PalmCall.configure st.api_key,
              PalmCall.chat (palmChatArgsOf st messages rs context? examples prompt)])
          | Except.error ex =>
            (Except.error (AdapterError.aiException ErrorCodes.ServiceError
              "Google PaLM service failed to complete the prompt" (some ex)),
             st, [PalmCall.configure st.api_key,
                  PalmCall.chat (palmChatArgsOf st messages rs context? examples prompt)])
        | some history =>
          match be.reply history (messages.getLastD ("", "")).2 with
          | Except.ok response =>
            (Except.ok response, { st with message_history := some response },
             [PalmCall.configure st.api_key,
              PalmCall.reply history (messages.getLastD ("", "")).2])
          | Except.error ex =>
            (Except.error (AdapterError.aiException ErrorCodes.ServiceError
              "Google PaLM service failed to complete the prompt" (some ex)),
             st, [PalmCall.configure st.api_key,
                  PalmCall.reply history (messages.getLastD ("", "")).2])

/-- `GooglePalmChatCompletion.complete_chat_async`
(gp_chat_completion.py lines 55-74). -/
def GooglePalmChatCompletion.complete_chat_async (be : PalmBackend) (st : GPState)
    (messages : List (String × String)) (request_settings : ChatRequestSettings)
    (context? : Option String) (examples : Option Unit) (prompt : Option Unit) :
    Except AdapterError CompletionResult × GPState × List PalmCall :=
  match GooglePalmChatCompletion.send_chat_request be st messages (some request_settings)
      context? examples prompt with
  | (Except.error e, st2, tr) => (Except.error e, st2, tr)
  | (Except.ok response, st2, tr) =>
    if request_settings.number_of_responses > 1 then
      (Except.ok (Sum.inr (response.candidates.map (fun c => c.getD "I don\x27t know."))),
       st2, tr)
    else
      (Except.ok (Sum.inl (response.last.getD "I don\x27t know.")), st2, tr)

/-- The `ChatRequestSettings(...)` constructed from a
`CompleteRequestSettings` at gp_chat_completion.py lines 93-101. -/
def toChatSettings (rs : CompleteRequestSettings) : ChatRequestSettings :=
  { temperature := rs.temperature
    top_p := rs.top_p
    presence_penalty := rs.presence_penalty
    frequency_penalty := rs.frequency_penalty
    max_tokens := rs.max_tokens
    number_of_responses := rs.number_of_responses
    token_selection_biases := rs.token_selection_biases }

/-- `GooglePalmChatCompletion.complete_async`
(gp_chat_completion.py lines 86-111): wraps the prompt as a single user
message, converts the settings, and reconciles like the chat variant. -/
def GooglePalmChatCompletion.complete_async (be : PalmBackend) (st : GPState)
    (prompt : String) (request_settings : CompleteRequestSettings) :
    Except AdapterError CompletionResult × GPState × List PalmCall :=
  let prompt_to_message : List (String × String) := [("user", prompt)]
  let chat_settings : ChatRequestSettings := toChatSettings request_settings
  match GooglePalmChatCompletion.send_chat_request be st prompt_to_message
      (some chat_settings) none none none with
  | (Except.error e, st2, tr) => (Except.error e, st2, tr)
  | (Except.ok response, st2, tr) =>
    if chat_settings.number_of_responses > 1 then
      (Except.ok (Sum.inr (response.candidates.map (fun c => c.getD "I don\x27t know."))),
       st2, tr)
    else
      (Except.ok (Sum.inl (response.last.getD "I don\x27t know.")), st2, tr)

/-- `GooglePalmChatCompletion.complete_chat_stream_async`
(gp_chat_completion.py lines 76-84): raises `NotImplementedError`
unconditionally, touching neither the state nor the backend. -/
def GooglePalmChatCompletion.complete_chat_stream_async (st : GPState)
    (messages : List (String × String)) (request_settings : ChatRequestSettings)
    (context? : Option String) :
    Except AdapterError (List String) × GPState × List PalmCall :=
  (Except.error (AdapterError.notImplementedError
    "Google Palm API does not currently support streaming"), st, [])

/-- `GooglePalmChatCompletion.complete_stream_async`
(gp_chat_completion.py lines 113-121): raises `NotImplementedError`
unconditionally, touching neither the state nor the backend. -/
def GooglePalmChatCompletion.complete_stream_async (st : GPState)
    (prompt : String) (request_settings : CompleteRequestSettings) :
    Except AdapterError (List String) × GPState × List PalmCall :=
  (Except.error (AdapterError.notImplementedError
    "Google Palm API does not currently support streaming"), st, [])

/-- The `transformers.GenerationConfig` built at
hf_text_completion.py lines 81-86 and 128-133. -/
structure GenerationConfig where
  temperature : Int
  top_p : Int
  max_new_tokens : Int
  pad_token_id : Nat
deriving DecidableEq, Repr

/-- The arguments of one invocation of the bound `transformers` pipeline
(`self.generator(...)`, hf_text_completion.py lines 88-93). -/
structure HFGenArgs where
  prompt : String
  do_sample : Bool
  num_return_sequences : Nat
  generation_config : GenerationConfig
deriving DecidableEq, Repr

/-- One pipeline output dictionary.  A field holds `none` when the
corresponding key ("summary_text" / "generated_text") is missing, in which
case Python indexing raises `KeyError`. -/
structure HFCandidate where
  summary_text : Option String
  generated_text : Option String
deriving DecidableEq, Repr

/-- One observable call into the `transformers` backend. -/
inductive HFCall where
  | generate (args : HFGenArgs)
  | tokenizer (model : String)
  | streamGenerate (args : HFGenArgs)
deriving DecidableEq, Repr

/-- The Hugging Face backend as an opaque capability provider:
`generate` is the bound pipeline, `tokenizer_from_pretrained` is
`AutoTokenizer.from_pretrained`, `stream` is the streamed generation run
drained through the `TextIteratorStreamer`. -/
structure HFBackend where
  generate : HFGenArgs → Except BackendExn (List HFCandidate)
  tokenizer_from_pretrained : String → Except BackendExn Unit
  stream : HFGenArgs → Except BackendExn (List String)

/-- The relevant fields of a `HuggingFaceTextCompletion` instance. -/
structure HFState where
  ai_model_id : String
  task : String
deriving DecidableEq, Repr

/-- `transformers.GenerationConfig(temperature=..., top_p=...,
max_new_tokens=..., pad_token_id=50256)`
(hf_text_completion.py lines 81-86). -/
def hfGenerationConfig (rs : CompleteRequestSettings) : GenerationConfig :=
  { temperature := rs.temperature
    top_p := rs.top_p
    max_new_tokens := rs.max_tokens
    pad_token_id := 50256 }

/-- The pipeline call arguments at hf_text_completion.py lines 88-93. -/
def hfArgs (prompt : String) (rs : CompleteRequestSettings) : HFGenArgs :=
  { prompt := prompt
    do_sample := true
    num_return_sequences := rs.number_of_responses
    generation_config := hfGenerationConfig rs }

/-- Extraction of one text field from every pipeline output in order
(`completions.extend(response[key] for response in results)`,
hf_text_completion.py lines 97 and 99); a missing key raises `KeyError`
at the first offending entry. -/
def extractTexts (key : String) (sel : HFCandidate → Option String) :
    List HFCandidate → Except BackendExn (List String)
  | [] => Except.ok []
  | r :: rest =>
    match sel r with
    | none => Except.error { msg := "KeyError: " ++ key }
    | some t =>
      match extractTexts key sel rest with
      | Except.error e => Except.error e
      | Except.ok ts => Except.ok (t :: ts)

/-- `HuggingFaceTextCompletion.complete_async`
(hf_text_completion.py lines 74-102).  Everything from the
`GenerationConfig` construction through text extraction sits in one
`try` block whose `except` re-raises
`AIException("Hugging Face completion failed", e)`. -/
def HuggingFaceTextCompletion.complete_async (be : HFBackend) (st : HFState)
    (prompt : String) (request_settings : CompleteRequestSettings) :
    Except AdapterError CompletionResult × List HFCall :=
  match be.generate (hfArgs prompt request_settings) with
  | Except.error e =>
    (Except.error (AdapterError.aiExceptionMsgFirst "Hugging Face completion failed" e),
     [HFCall.generate (hfArgs prompt request_settings)])
  | Except.ok results =>
    match (if st.task = "summarization" then
            extractTexts "summary_text" (fun r => r.summary_text) results
          else
            extractTexts "generated_text" (fun r => r.generated_text) results) with
    | Except.error e =>
      (Except.error (AdapterError.aiExceptionMsgFirst "Hugging Face completion failed" e),
       [HFCall.generate (hfArgs prompt request_settings)])
    | Except.ok completions =>
      (Except.ok (if completions.length = 1 then Sum.inl (completions.getD 0 "")
                  else Sum.inr completions),
       [HFCall.generate (hfArgs prompt request_settings)])

/-- `HuggingFaceTextCompletion.complete_stream_async`
(hf_text_completion.py lines 104-155).  The multi-response check at lines
121-126 precedes the `try` block; the drained stream is the list of
yielded fragments. -/
def HuggingFaceTextCompletion.complete_stream_async (be : HFBackend) (st : HFState)
    (prompt : String) (request_settings : CompleteRequestSettings) :
    Except AdapterError (List String) × List HFCall :=
  if request_settings.number_of_responses > 1 then
    (Except.error (AdapterError.aiException ErrorCodes.InvalidConfiguration
      "HuggingFace TextIteratorStreamer does not stream multiple responses in a parseable format. If you need multiple responses, please use the complete_async method."
      none), [])
  else
    match be.tokenizer_from_pretrained st.ai_model_id with
    | Except.error e =>
      (Except.error (AdapterError.aiExceptionMsgFirst "Hugging Face completion failed" e),
       [HFCall.tokenizer st.ai_model_id])
    | Except.ok _ =>
      match be.stream (hfArgs prompt request_settings) with
      | Except.error e =>
        (Except.error (AdapterError.aiExceptionMsgFirst "Hugging Face completion failed" e),
         [HFCall.tokenizer st.ai_model_id,
          HFCall.streamGenerate (hfArgs prompt request_settings)])
      | Except.ok chunks =>
        (Except.ok chunks,
         [HFCall.tokenizer st.ai_model_id,
          HFCall.streamGenerate (hfArgs prompt request_settings)])

/-- The result-shape invariant of the data model, as the spec words it:
with more than one requested response, a list of exactly that many strings;
with exactly one, a single string, never a list. -/
def shapeOk (n : Nat) (res : CompletionResult) : Bool :=
  if n > 1 then
    match res with
    | Sum.inr l => l.length == n
    | Sum.inl _ => false
  else if n = 1 then
    match res with
    | Sum.inl _ => true
    | Sum.inr _ => false
  else true

/-- The context fold exactly as the spec describes it (fold every message
except the last, in original order; role "system" appends just its text,
any other role appends "role: text", each entry terminated by a newline),
to be compared with the source-derived `assembleContext`. -/
def specFoldedContext (messages : List (String × String)) : String :=
  messages.dropLast.foldl
    (fun ctx rm =>
      ctx ++ (if rm.1 = "system" then rm.2 ++ "\n" else rm.1 ++ ": " ++ rm.2 ++ "\n"))
    ""

theorem assembleContext_eq_specFoldedContext (messages : List (String × String)) :
    assembleContext messages = specFoldedContext messages := by
  unfold assembleContext specFoldedContext
  rcases messages with _ | ⟨a, _ | ⟨b, rest⟩⟩
  · rfl
  · rfl
  · simp [List.dropLast_eq_take]

theorem extractTexts_length (key : String) (sel : HFCandidate → Option String) :
    ∀ (l : List HFCandidate) (ts : List String),
      extractTexts key sel l = Except.ok ts → ts.length = l.length := by
  intro l
  induction l with
  | nil =>
    intro ts h
    unfold extractTexts at h
    simp only [Except.ok.injEq] at h
    simp [← h]
  | cons r rest ih =>
    intro ts h
    unfold extractTexts at h
    cases hs : sel r with
    | none => rw [hs] at h; simp at h
    | some t =>
      rw [hs] at h
      cases he : extractTexts key sel rest with
      | error e => rw [he] at h; simp at h
      | ok ts2 =>
        rw [he] at h
        simp only [Except.ok.injEq] at h
        rw [← h]
        simp [ih ts2 he]

theorem send_chat_request_conf_err (be : PalmBackend) (st : GPState)
    (messages : List (String × String)) (rs : ChatRequestSettings)
    (context? : Option String) (examples : Option Unit) (prompt : Option Unit)
    (ex : BackendExn)
    (hmax : ¬ rs.max_tokens < 1) (hlen : ¬ messages.length ≤ 0)
    (hrole : (messages.getLastD ("", "")).1 = "user")
    (hconf : be.configure st.api_key = Except.error ex) :
    GooglePalmChatCompletion.send_chat_request be st messages (some rs)
        context? examples prompt =
      (Except.error (AdapterError.permissionError
        "Google PaLM service failed to configure. Invalid API key provided." ex),
       st, [PalmCall.configure st.api_key]) := by
  unfold GooglePalmChatCompletion.send_chat_request
  dsimp only
  rw [if_neg hmax, if_neg hlen,
    if_neg (show ¬ ((messages.getLastD ("", "")).1 ≠ "user") by simpa using hrole), hconf]

theorem send_chat_request_fresh_ok (be : PalmBackend) (st : GPState)
    (messages : List (String × String)) (rs : ChatRequestSettings)
    (context? : Option String) (examples : Option Unit) (prompt : Option Unit)
    (u : Unit) (r : ChatResponse)
    (hmax : ¬ rs.max_tokens < 1) (hlen : ¬ messages.length ≤ 0)
    (hrole : (messages.getLastD ("", "")).1 = "user")
    (hconf : be.configure st.api_key = Except.ok u)
    (hist : st.message_history = none)
    (hchat : be.chat (palmChatArgsOf st messages rs context? examples prompt)
      = Except.ok r) :
    GooglePalmChatCompletion.send_chat_request be st messages (some rs)
        context? examples prompt =
      (Except.ok r, { st with message_history := some r },
       [PalmCall.configure st.api_key,
        PalmCall.chat (palmChatArgsOf st messages rs context? examples prompt)]) := by
  unfold GooglePalmChatCompletion.send_chat_request
  dsimp only
  rw [if_neg hmax, if_neg hlen,
    if_neg (show ¬ ((messages.getLastD ("", "")).1 ≠ "user") by simpa using hrole),
    hconf, hist, hchat]

theorem send_chat_request_fresh_err (be : PalmBackend) (st : GPState)
    (messages : List (String × String)) (rs : ChatRequestSettings)
    (context? : Option String) (examples : Option Unit) (prompt : Option Unit)
    (u : Unit) (ex : BackendExn)
    (hmax : ¬ rs.max_tokens < 1) (hlen : ¬ messages.length ≤ 0)
    (hrole : (messages.getLastD ("", "")).1 = "user")
    (hconf : be.configure st.api_key = Except.ok u)
    (hist : st.message_history = none)
    (hchat : be.chat (palmChatArgsOf st messages rs context? examples prompt)
      = Except.error ex) :
    GooglePalmChatCompletion.send_chat_request be st messages (some rs)
        context? examples prompt =
      (Except.error (AdapterError.aiException ErrorCodes.ServiceError
        "Google PaLM service failed to complete the prompt" (some ex)),
       st, [PalmCall.configure st.api_key,
            PalmCall.chat (palmChatArgsOf st messages rs context? examples prompt)]) := by
  unfold GooglePalmChatCompletion.send_chat_request
  dsimp only
  rw [if_neg hmax, if_neg hlen,
    if_neg (show ¬ ((messages.getLastD ("", "")).1 ≠ "user") by simpa using hrole),
    hconf, hist, hchat]

theorem send_chat_request_active_ok (be : PalmBackend) (st : GPState)
    (messages : List (String × String)) (rs : ChatRequestSettings)
    (context? : Option String) (examples : Option Unit) (prompt : Option Unit)
    (u : Unit) (h : ChatResponse) (r : ChatResponse)
    (hmax : ¬ rs.max_tokens < 1) (hlen : ¬ messages.length ≤ 0)
    (hrole : (messages.getLastD ("", "")).1 = "user")
    (hconf : be.configure st.api_key = Except.ok u)
    (hist : st.message_history = some h)
    (hreply : be.reply h (messages.getLastD ("", "")).2 = Except.ok r) :
    GooglePalmChatCompletion.send_chat_request be st messages (some rs)
        context? examples prompt =
      (Except.ok r, { st with message_history := some r },
       [PalmCall.configure st.api_key,
        PalmCall.reply h (messages.getLastD ("", "")).2]) := by
  unfold GooglePalmChatCompletion.send_chat_request
  dsimp only
  rw [if_neg hmax, if_neg hlen,
    if_neg (show ¬ ((messages.getLastD ("", "")).1 ≠ "user") by simpa using hrole),
    hconf, hist]
  dsimp only
  rw [hreply]

theorem send_chat_request_active_err (be : PalmBackend) (st : GPState)
    (messages : List (String × String)) (rs : ChatRequestSettings)
    (context? : Option String) (examples : Option Unit) (prompt : Option Unit)
    (u : Unit) (h : ChatResponse) (ex : BackendExn)
    (hmax : ¬ rs.max_tokens < 1) (hlen : ¬ messages.length ≤ 0)
    (hrole : (messages.getLastD ("", "")).1 = "user")
    (hconf : be.configure st.api_key = Except.ok u)
    (hist : st.message_history = some h)
    (hreply : be.reply h (messages.getLastD ("", "")).2 = Except.error ex) :
    GooglePalmChatCompletion.send_chat_request be st messages (some rs)
        context? examples prompt =
      (Except.error (AdapterError.aiException ErrorCodes.ServiceError
        "Google PaLM service failed to complete the prompt" (some ex)),
       st, [PalmCall.configure st.api_key,
            PalmCall.reply h (messages.getLastD ("", "")).2]) := by
  unfold GooglePalmChatCompletion.send_chat_request
  dsimp only
  rw [if_neg hmax, if_neg hlen,
    if_neg (show ¬ ((messages.getLastD ("", "")).1 ≠ "user") by simpa using hrole),
    hconf, hist]
  dsimp only
  rw [hreply]

theorem complete_chat_async_of_send (be : PalmBackend) (st : GPState)
    (messages : List (String × String)) (rs : ChatRequestSettings)
    (context? : Option String) (examples : Option Unit) (prompt : Option Unit)
    (r : ChatResponse) (st2 : GPState) (tr : List PalmCall)
    (hs : GooglePalmChatCompletion.send_chat_request be st messages (some rs)
      context? examples prompt = (Except.ok r, st2, tr)) :
    GooglePalmChatCompletion.complete_chat_async be st messages rs
        context? examples prompt =
      (Except.ok (if rs.number_of_responses > 1
        then Sum.inr (r.candidates.map (fun c => c.getD "I don\x27t know."))
        else Sum.inl (r.last.getD "I don\x27t know.")), st2, tr) := by
  unfold GooglePalmChatCompletion.complete_chat_async
  rw [hs]
  dsimp only
  by_cases hn : rs.number_of_responses > 1
  · rw [if_pos hn, if_pos hn]
  · rw [if_neg hn, if_neg hn]

theorem complete_chat_async_of_send_err (be : PalmBackend) (st : GPState)
    (messages : List (String × String)) (rs : ChatRequestSettings)
    (context? : Option String) (examples : Option Unit) (prompt : Option Unit)
    (e : AdapterError) (st2 : GPState) (tr : List PalmCall)
    (hs : GooglePalmChatCompletion.send_chat_request be st messages (some rs)
      context? examples prompt = (Except.error e, st2, tr)) :
    GooglePalmChatCompletion.complete_chat_async be st messages rs
        context? examples prompt = (Except.error e, st2, tr) := by
  unfold GooglePalmChatCompletion.complete_chat_async
  rw [hs]

theorem complete_async_of_send (be : PalmBackend) (st : GPState)
    (prompt : String) (rs : CompleteRequestSettings)
    (r : ChatResponse) (st2 : GPState) (tr : List PalmCall)
    (hs : GooglePalmChatCompletion.send_chat_request be st [("user", prompt)]
      (some (toChatSettings rs)) none none none = (Except.ok r, st2, tr)) :
    GooglePalmChatCompletion.complete_async be st prompt rs =
      (Except.ok (if rs.number_of_responses > 1
        then Sum.inr (r.candidates.map (fun c => c.getD "I don\x27t know."))
        else Sum.inl (r.last.getD "I don\x27t know.")), st2, tr) := by
  unfold GooglePalmChatCompletion.complete_async
  dsimp only
  rw [hs]
  dsimp only
  by_cases hn : rs.number_of_responses > 1
  · rw [if_pos (show (toChatSettings rs).number_of_responses > 1 from hn), if_pos hn]
  · rw [if_neg (show ¬ (toChatSettings rs).number_of_responses > 1 from hn), if_neg hn]

theorem complete_async_of_send_err (be : PalmBackend) (st : GPState)
    (prompt : String) (rs : CompleteRequestSettings)
    (e : AdapterError) (st2 : GPState) (tr : List PalmCall)
    (hs : GooglePalmChatCompletion.send_chat_request be st [("user", prompt)]
      (some (toChatSettings rs)) none none none = (Except.error e, st2, tr)) :
    GooglePalmChatCompletion.complete_async be st prompt rs =
      (Except.error e, st2, tr) := by
  unfold GooglePalmChatCompletion.complete_async
  dsimp only
  rw [hs]

/-- A permissive concrete PaLM backend used by witnesses: it honours the
requested candidate count and answers "pong". -/
def cOkBackend : PalmBackend where
  configure := fun _ => Except.ok ()
  chat := fun args =>
    Except.ok { candidates := List.replicate args.candidate_count (some "pong")
                last := some "pong" }
  reply := fun _ m => Except.ok { candidates := [some ("re " ++ m)], last := some ("re " ++ m) }

/-- A concrete PaLM backend whose generation calls always raise. -/
def cFailChatBackend : PalmBackend where
  configure := fun _ => Except.ok ()
  chat := fun _ => Except.error { msg := "boom" }
  reply := fun _ _ => Except.error { msg := "boom" }

/-- A concrete PaLM backend that rejects the API key at configure time. -/
def cBadKeyBackend : PalmBackend where
  configure := fun _ => Except.error { msg := "bad key" }
  chat := fun _ => Except.ok { candidates := [], last := none }
  reply := fun _ _ => Except.ok { candidates := [], last := none }

/-- A permissive concrete Hugging Face backend used by witnesses: the
pipeline honours `num_return_sequences`. -/
def cHFBackend : HFBackend where
  generate := fun args =>
    Except.ok (List.replicate args.num_return_sequences
      { summary_text := some "sum", generated_text := some "gen" })
  tokenizer_from_pretrained := fun _ => Except.ok ()
  stream := fun _ => Except.ok ["chunk"]

def cFresh : GPState := { api_key := "k", ai_model_id := "m", message_history := none }

def cPrev : ChatResponse := { candidates := [some "prev"], last := some "prev" }

def cActive : GPState := { api_key := "k", ai_model_id := "m", message_history := some cPrev }

def cSettings1 : ChatRequestSettings := ⟨0, 0, 0, 0, 10, 1, []⟩

def cSettings2 : ChatRequestSettings := ⟨0, 0, 0, 0, 10, 2, []⟩

def cCSettings1 : CompleteRequestSettings := ⟨0, 0, 0, 0, 10, 1, []⟩

def cCSettings2 : CompleteRequestSettings := ⟨0, 0, 0, 0, 10, 2, []⟩

def cCSettings0 : CompleteRequestSettings := ⟨0, 0, 0, 0, 0, 1, []⟩

def cHFState : HFState := { ai_model_id := "hfm", task := "text2text-generation" }

theorem send_fresh_ok_inversion (be : PalmBackend) (st : GPState)
    (messages : List (String × String)) (rs : ChatRequestSettings)
    (context? : Option String) (examples : Option Unit) (prompt : Option Unit)
    (r : ChatResponse) (st2 : GPState) (tr : List PalmCall)
    (hist : st.message_history = none)
    (hs : GooglePalmChatCompletion.send_chat_request be st messages (some rs)
      context? examples prompt = (Except.ok r, st2, tr)) :
    st2 = { st with message_history := some r } ∧
    tr = [PalmCall.configure st.api_key,
          PalmCall.chat (palmChatArgsOf st messages rs context? examples prompt)] := by
  unfold GooglePalmChatCompletion.send_chat_request at hs
  dsimp only at hs
  by_cases hmax : rs.max_tokens < 1
  · rw [if_pos hmax] at hs; simp at hs
  · rw [if_neg hmax] at hs
    by_cases hlen : messages.length ≤ 0
    · rw [if_pos hlen] at hs; simp at hs
    · rw [if_neg hlen] at hs
      by_cases hrole : (messages.getLastD ("", "")).1 ≠ "user"
      · rw [if_pos hrole] at hs; simp at hs
      · rw [if_neg hrole] at hs
        rcases hconf : be.configure st.api_key with ex | u
        · rw [hconf] at hs; simp at hs
        · rw [hconf, hist] at hs
          dsimp only at hs
          rcases hchat : be.chat (palmChatArgsOf st messages rs context? examples prompt)
            with ex2 | r2
          · rw [hchat] at hs; simp at hs
          · rw [hchat] at hs
            simp only [Prod.mk.injEq, Except.ok.injEq] at hs
            obtain ⟨hr, hst, htr⟩ := hs
            subst hr
            exact ⟨hst.symm, htr.symm⟩

theorem send_active_ok_inversion (be : PalmBackend) (st : GPState)
    (messages : List (String × String)) (rs : ChatRequestSettings)
    (context? : Option String) (examples : Option Unit) (prompt : Option Unit)
    (hh : ChatResponse) (r : ChatResponse) (st2 : GPState) (tr : List PalmCall)
    (hist : st.message_history = some hh)
    (hs : GooglePalmChatCompletion.send_chat_request be st messages (some rs)
      context? examples prompt = (Except.ok r, st2, tr)) :
    st2 = { st with message_history := some r } ∧
    tr = [PalmCall.configure st.api_key,
          PalmCall.reply hh (messages.getLastD ("", "")).2] := by
  unfold GooglePalmChatCompletion.send_chat_request at hs
  dsimp only at hs
  by_cases hmax : rs.max_tokens < 1
  · rw [if_pos hmax] at hs; simp at hs
  · rw [if_neg hmax] at hs
    by_cases hlen : messages.length ≤ 0
    · rw [if_pos hlen] at hs; simp at hs
    · rw [if_neg hlen] at hs
      by_cases hrole : (messages.getLastD ("", "")).1 ≠ "user"
      · rw [if_pos hrole] at hs; simp at hs
      · rw [if_neg hrole] at hs
        rcases hconf : be.configure st.api_key with ex | u
        · rw [hconf] at hs; simp at hs
        · rw [hconf, hist] at hs
          dsimp only at hs
          rcases hreply : be.reply hh (messages.getLastD ("", "")).2 with ex2 | r2
          · rw [hreply] at hs; simp at hs
          · rw [hreply] at hs
            simp only [Prod.mk.injEq, Except.ok.injEq] at hs
            obtain ⟨hr, hst, htr⟩ := hs
            subst hr
            exact ⟨hst.symm, htr.symm⟩

theorem send_no_reset (be : PalmBackend) (st : GPState)
    (messages : List (String × String)) (settings? : Option ChatRequestSettings)
    (context? : Option String) (examples : Option Unit) (prompt : Option Unit)
    (h : st.message_history.isSome = true) :
    ((GooglePalmChatCompletion.send_chat_request be st messages settings?
      context? examples prompt).2.1).message_history.isSome = true := by
  unfold GooglePalmChatCompletion.send_chat_request
  rcases settings? with _ | rs
  · exact h
  · dsimp only
    by_cases hmax : rs.max_tokens < 1
    · rw [if_pos hmax]; exact h
    · rw [if_neg hmax]
      by_cases hlen : messages.length ≤ 0
      · rw [if_pos hlen]; exact h
      · rw [if_neg hlen]
        by_cases hrole : (messages.getLastD ("", "")).1 ≠ "user"
        · rw [if_pos hrole]; exact h
        · rw [if_neg hrole]
          rcases hconf : be.configure st.api_key with ex | u
          · exact h
          · rcases hist : st.message_history with _ | hh
            · rw [hist] at h; simp at h
            · dsimp only
              rcases hreply : be.reply hh (messages.getLastD ("", "")).2 with ex2 | r2
              · exact h
              · rfl

theorem complete_chat_async_state (be : PalmBackend) (st : GPState)
    (messages : List (String × String)) (rs : ChatRequestSettings)
    (context? : Option String) (examples : Option Unit) (prompt : Option Unit) :
    (GooglePalmChatCompletion.complete_chat_async be st messages rs
      context? examples prompt).2.1
      = (GooglePalmChatCompletion.send_chat_request be st messages (some rs)
        context? examples prompt).2.1 := by
  unfold GooglePalmChatCompletion.complete_chat_async
  rcases hs : GooglePalmChatCompletion.send_chat_request be st messages (some rs)
    context? examples prompt with ⟨res, st2, tr⟩
  rcases res with e | r
  · rfl
  · dsimp only
    by_cases hn : rs.number_of_responses > 1
    · rw [if_pos hn]
    · rw [if_neg hn]

theorem complete_async_state (be : PalmBackend) (st : GPState)
    (prompt : String) (rs : CompleteRequestSettings) :
    (GooglePalmChatCompletion.complete_async be st prompt rs).2.1
      = (GooglePalmChatCompletion.send_chat_request be st [("user", prompt)]
        (some (toChatSettings rs)) none none none).2.1 := by
  unfold GooglePalmChatCompletion.complete_async
  dsimp only
  rcases hs : GooglePalmChatCompletion.send_chat_request be st [("user", prompt)]
    (some (toChatSettings rs)) none none none with ⟨res, st2, tr⟩
  rcases res with e | r
  · rfl
  · dsimp only
    by_cases hn : (toChatSettings rs).number_of_responses > 1
    · rw [if_pos hn]
    · rw [if_neg hn]

/-- Recognizer for the adapter-level AIException with error code
InvalidRequest and no inner exception, the shape of all three fail-fast
validation raises in `_send_chat_request`. -/
def failsInvalidRequest : Except AdapterError ChatResponse → Bool
  | Except.error (AdapterError.aiException ErrorCodes.InvalidRequest _ none) => true
  | _ => false

/-- C7: a `HuggingFaceTextCompletion.complete_stream_async` call with
`number_of_responses > 1` fails with an InvalidConfiguration adapter error
and performs no generation work: the backend-call trace is empty, so no
tokenizer, streamer or pipeline invocation happens before the error. -/
theorem C7_hf_stream_multi_rejected (be : HFBackend) (st : HFState)
    (prompt : String) (rs : CompleteRequestSettings)
    (hn : rs.number_of_responses > 1) :
    HuggingFaceTextCompletion.complete_stream_async be st prompt rs =
      (Except.error (AdapterError.aiException ErrorCodes.InvalidConfiguration
        "HuggingFace TextIteratorStreamer does not stream multiple responses in a parseable format. If you need multiple responses, please use the complete_async method."
        none), []) := by
  unfold HuggingFaceTextCompletion.complete_stream_async
  rw [if_pos hn]

/-- Witness for C7 at `number_of_responses = 2`. -/
theorem C7_hf_stream_multi_rejected_witness :
    cCSettings2.number_of_responses > 1 ∧
    HuggingFaceTextCompletion.complete_stream_async cHFBackend cHFState "p" cCSettings2 =
      (Except.error (AdapterError.aiException ErrorCodes.InvalidConfiguration
        "HuggingFace TextIteratorStreamer does not stream multiple responses in a parseable format. If you need multiple responses, please use the complete_async method."
        none), []) :=
  ⟨by decide, C7_hf_stream_multi_rejected cHFBackend cHFState "p" cCSettings2 (by decide)⟩

/-- C8: on every input, both GooglePalmChatCompletion streaming operations
fail immediately with a not-implemented signal: state unchanged, no backend
call in the trace, no partial output. -/
theorem C8_palm_streaming_not_implemented (st : GPState)
    (messages : List (String × String)) (rs : ChatRequestSettings)
    (context? : Option String) (prompt : String) (crs : CompleteRequestSettings) :
    GooglePalmChatCompletion.complete_chat_stream_async st messages rs context? =
      (Except.error (AdapterError.notImplementedError
        "Google Palm API does not currently support streaming"), st, []) ∧
    GooglePalmChatCompletion.complete_stream_async st prompt crs =
      (Except.error (AdapterError.notImplementedError
        "Google Palm API does not currently support streaming"), st, []) :=
  ⟨rfl, rfl⟩

/-- C9: on a chat call with settings present, an empty message list, or a
last message whose role is not "user", fails with an InvalidRequest adapter
error, with an empty backend-call trace and the state unchanged. -/
theorem C9_message_validation (be : PalmBackend) (st : GPState)
    (messages : List (String × String)) (rs : ChatRequestSettings)
    (context? : Option String) (examples : Option Unit) (prompt : Option Unit)
    (h : messages = [] ∨ (messages.getLastD ("", "")).1 ≠ "user") :
    failsInvalidRequest (GooglePalmChatCompletion.send_chat_request be st messages
      (some rs) context? examples prompt).1 = true ∧
    (GooglePalmChatCompletion.send_chat_request be st messages
      (some rs) context? examples prompt).2 = (st, []) := by
  unfold GooglePalmChatCompletion.send_chat_request
  dsimp only
  by_cases hmax : rs.max_tokens < 1
  · rw [if_pos hmax]; exact ⟨rfl, rfl⟩
  · rw [if_neg hmax]
    by_cases hlen : messages.length ≤ 0
    · rw [if_pos hlen]; exact ⟨rfl, rfl⟩
    · rw [if_neg hlen]
      have hrole : (messages.getLastD ("", "")).1 ≠ "user" := by
        rcases h with h | h
        · exact absurd (by simp [h]) hlen
        · exact h
      rw [if_pos hrole]
      exact ⟨rfl, rfl⟩

/-- Witness for C9: last message from role "assistant". -/
theorem C9_message_validation_witness :
    (([("assistant", "Hi")] : List (String × String)) = [] ∨
      (([("assistant", "Hi")] : List (String × String)).getLastD ("", "")).1 ≠ "user") ∧
    failsInvalidRequest (GooglePalmChatCompletion.send_chat_request cOkBackend cFresh
      [("assistant", "Hi")] (some cSettings1) none none none).1 = true ∧
    (GooglePalmChatCompletion.send_chat_request cOkBackend cFresh
      [("assistant", "Hi")] (some cSettings1) none none none).2 = (cFresh, []) :=
  ⟨Or.inr (by decide),
   C9_message_validation cOkBackend cFresh [("assistant", "Hi")] cSettings1 none none none
     (Or.inr (by decide))⟩

/-- C10: a `_send_chat_request` call that propagates an exception leaves the
adapter state, in particular the stored `_message_history` handle, exactly
as it was: the `self._message_history = response` assignment only runs after
a successful backend call. -/
theorem C10_failure_preserves_history (be : PalmBackend) (st : GPState)
    (messages : List (String × String)) (settings? : Option ChatRequestSettings)
    (context? : Option String) (examples : Option Unit) (prompt : Option Unit)
    (e : AdapterError)
    (h : (GooglePalmChatCompletion.send_chat_request be st messages settings?
      context? examples prompt).1 = Except.error e) :
    (GooglePalmChatCompletion.send_chat_request be st messages settings?
      context? examples prompt).2.1 = st := by
  unfold GooglePalmChatCompletion.send_chat_request at h ⊢
  rcases settings? with _ | rs
  · rfl
  · dsimp only at h ⊢
    by_cases hmax : rs.max_tokens < 1
    · rw [if_pos hmax]
    · rw [if_neg hmax] at h ⊢
      by_cases hlen : messages.length ≤ 0
      · rw [if_pos hlen]
      · rw [if_neg hlen] at h ⊢
        by_cases hrole : (messages.getLastD ("", "")).1 ≠ "user"
        · rw [if_pos hrole]
        · rw [if_neg hrole] at h ⊢
          rcases hconf : be.configure st.api_key with ex | u
          · rw [hconf] at h
          · rw [hconf] at h
            rcases hist : st.message_history with _ | hh
            · rw [hist] at h
              dsimp only at h ⊢
              rcases hchat : be.chat (palmChatArgsOf st messages rs context? examples prompt)
                with ex2 | r2
              · rw [hchat] at h
              · rw [hchat] at h; simp at h
            · rw [hist] at h
              dsimp only at h ⊢
              rcases hreply : be.reply hh (messages.getLastD ("", "")).2 with ex2 | r2
              · rw [hreply] at h
              · rw [hreply] at h; simp at h

/-- Witness for C10: a reply-phase backend failure on an adapter that
already holds a conversation handle leaves the state untouched. -/
theorem C10_failure_preserves_history_witness :
    (GooglePalmChatCompletion.send_chat_request cFailChatBackend cActive
      [("user", "Hi")] (some cSettings1) none none none).2.1 = cActive :=
  C10_failure_preserves_history cFailChatBackend cActive [("user", "Hi")]
    (some cSettings1) none none none
    (AdapterError.aiException ErrorCodes.ServiceError
      "Google PaLM service failed to complete the prompt" (some { msg := "boom" }))
    (by rfl)

/-- C2: the conversation lifecycle of `GooglePalmChatCompletion`.
First conjunct: with no stored handle, a successful call issues the
configure call and exactly one `palm.chat` call carrying the assembled
context, the sampling settings and the final user message, and stores the
returned response as the new handle.  Second conjunct: with a stored
handle, a successful call issues only the handle reply capability with the
new user message text (no context, no sampling settings), and replaces the
handle with the returned response.  Remaining conjuncts: no operation ever
returns the adapter to the handle-less state. -/
theorem C2_conversation_lifecycle :
    (∀ (be : PalmBackend) (st : GPState) (messages : List (String × String))
        (rs : ChatRequestSettings) (context? : Option String)
        (examples prompt : Option Unit) (r : ChatResponse) (st2 : GPState)
        (tr : List PalmCall),
      st.message_history = none →
      GooglePalmChatCompletion.send_chat_request be st messages (some rs)
        context? examples prompt = (Except.ok r, st2, tr) →
      st2 = { st with message_history := some r } ∧
      tr = [PalmCall.configure st.api_key,
            PalmCall.chat (palmChatArgsOf st messages rs context? examples prompt)]) ∧
    (∀ (be : PalmBackend) (st : GPState) (messages : List (String × String))
        (rs : ChatRequestSettings) (context? : Option String)
        (examples prompt : Option Unit) (hh : ChatResponse) (r : ChatResponse)
        (st2 : GPState) (tr : List PalmCall),
      st.message_history = some hh →
      GooglePalmChatCompletion.send_chat_request be st messages (some rs)
        context? examples prompt = (Except.ok r, st2, tr) →
      st2 = { st with message_history := some r } ∧
      tr = [PalmCall.configure st.api_key,
            PalmCall.reply hh (messages.getLastD ("", "")).2]) ∧
    (∀ (be : PalmBackend) (st : GPState) (messages : List (String × String))
        (settings? : Option ChatRequestSettings) (context? : Option String)
        (examples prompt : Option Unit),
      st.message_history.isSome = true →
      ((GooglePalmChatCompletion.send_chat_request be st messages settings?
        context? examples prompt).2.1).message_history.isSome = true) ∧
    (∀ (be : PalmBackend) (st : GPState) (messages : List (String × String))
        (rs : ChatRequestSettings) (context? : Option String)
        (examples prompt : Option Unit),
      st.message_history.isSome = true →
      ((GooglePalmChatCompletion.complete_chat_async be st messages rs
        context? examples prompt).2.1).message_history.isSome = true) ∧
    (∀ (be : PalmBackend) (st : GPState) (prompt : String)
        (rs : CompleteRequestSettings),
      st.message_history.isSome = true →
      ((GooglePalmChatCompletion.complete_async be st prompt rs).2.1).message_history.isSome
        = true) ∧
    (∀ (st : GPState) (messages : List (String × String)) (rs : ChatRequestSettings)
        (context? : Option String) (prompt : String) (crs : CompleteRequestSettings),
      (GooglePalmChatCompletion.complete_chat_stream_async st messages rs context?).2.1 = st ∧
      (GooglePalmChatCompletion.complete_stream_async st prompt crs).2.1 = st) := by
  refine ⟨?_, ?_, ?_, ?_, ?_, ?_⟩
  · intro be st messages rs context? examples prompt r st2 tr hist hs
    exact send_fresh_ok_inversion be st messages rs context? examples prompt r st2 tr hist hs
  · intro be st messages rs context? examples prompt hh r st2 tr hist hs
    exact send_active_ok_inversion be st messages rs context? examples prompt hh r st2 tr hist hs
  · intro be st messages settings? context? examples prompt h
    exact send_no_reset be st messages settings? context? examples prompt h
  · intro be st messages rs context? examples prompt h
    rw [complete_chat_async_state]
    exact send_no_reset be st messages (some rs) context? examples prompt h
  · intro be st prompt rs h
    rw [complete_async_state]
    exact send_no_reset be st [("user", prompt)] (some (toChatSettings rs)) none none none h
  · intro st messages rs context? prompt crs
    exact ⟨rfl, rfl⟩

/-- Witness for C2 at the reply path: the second call on an adapter whose
handle is `cPrev` sends only the new message "Hi" and stores the reply. -/
theorem C2_conversation_lifecycle_witness :
    ({ api_key := "k", ai_model_id := "m",
       message_history := some { candidates := [some "re Hi"], last := some "re Hi" } } : GPState)
      = { cActive with message_history := some { candidates := [some "re Hi"], last := some "re Hi" } } ∧
    ([PalmCall.configure "k", PalmCall.reply cPrev "Hi"] : List PalmCall)
      = [PalmCall.configure cActive.api_key,
         PalmCall.reply cPrev (([("user", "Hi")] : List (String × String)).getLastD ("", "")).2] :=
  C2_conversation_lifecycle.2.1 cOkBackend cActive [("user", "Hi")] cSettings1
    none none none cPrev { candidates := [some "re Hi"], last := some "re Hi" }
    { api_key := "k", ai_model_id := "m",
      message_history := some { candidates := [some "re Hi"], last := some "re Hi" } }
    [PalmCall.configure "k", PalmCall.reply cPrev "Hi"] rfl (by rfl)

/-- C5: on a handle-less call with no explicit context, the single
`palm.chat` call of a successful request carries as context exactly the
spec-described fold of every message but the last (role "system" appends
its text plus newline, any other role appends "role: text" plus newline,
in original order) and carries the final message text as the live
message. -/
theorem C5_context_assembly (be : PalmBackend) (st : GPState)
    (messages : List (String × String)) (rs : ChatRequestSettings)
    (examples prompt : Option Unit) (r : ChatResponse) (st2 : GPState)
    (tr : List PalmCall)
    (hist : st.message_history = none)
    (hs : GooglePalmChatCompletion.send_chat_request be st messages (some rs)
      none examples prompt = (Except.ok r, st2, tr)) :
    tr = [PalmCall.configure st.api_key,
          PalmCall.chat (palmChatArgsOf st messages rs none examples prompt)] ∧
    (palmChatArgsOf st messages rs none examples prompt).context
      = some (specFoldedContext messages) ∧
    (palmChatArgsOf st messages rs none examples prompt).messages
      = (messages.getLastD ("", "")).2 := by
  refine ⟨(send_fresh_ok_inversion be st messages rs none examples prompt
    r st2 tr hist hs).2, ?_, rfl⟩
  unfold palmChatArgsOf palmContext
  rw [hist]
  dsimp only
  rw [assembleContext_eq_specFoldedContext]

/-- Witness for C5 on the spec example:
messages = [("system", "You are terse."), ("user", "Hi")] yields the
context "You are terse.\n" and the live message "Hi". -/
theorem C5_context_assembly_witness :
    specFoldedContext [("system", "You are terse."), ("user", "Hi")] = "You are terse.\n" ∧
    (palmChatArgsOf cFresh [("system", "You are terse."), ("user", "Hi")] cSettings1
      none none none).messages = "Hi" ∧
    ([PalmCall.configure "k",
      PalmCall.chat { model := "m", context := some "You are terse.\n", examples := none,
                      temperature := 0, candidate_count := 1, top_p := 0, prompt := none,
                      messages := "Hi" }] : List PalmCall)
      = [PalmCall.configure cFresh.api_key,
         PalmCall.chat (palmChatArgsOf cFresh [("system", "You are terse."), ("user", "Hi")]
           cSettings1 none none none)] ∧
    (palmChatArgsOf cFresh [("system", "You are terse."), ("user", "Hi")] cSettings1
      none none none).context
      = some (specFoldedContext [("system", "You are terse."), ("user", "Hi")]) :=
  ⟨by decide, by decide,
   (C5_context_assembly cOkBackend cFresh [("system", "You are terse."), ("user", "Hi")]
     cSettings1 none none { candidates := [some "pong"], last := some "pong" }
     { api_key := "k", ai_model_id := "m",
       message_history := some { candidates := [some "pong"], last := some "pong" } }
     [PalmCall.configure "k",
      PalmCall.chat { model := "m", context := some "You are terse.\n", examples := none,
                      temperature := 0, candidate_count := 1, top_p := 0, prompt := none,
                      messages := "Hi" }] rfl (by rfl)).1,
   (C5_context_assembly cOkBackend cFresh [("system", "You are terse."), ("user", "Hi")]
     cSettings1 none none { candidates := [some "pong"], last := some "pong" }
     { api_key := "k", ai_model_id := "m",
       message_history := some { candidates := [some "pong"], last := some "pong" } }
     [PalmCall.configure "k",
      PalmCall.chat { model := "m", context := some "You are terse.\n", examples := none,
                      temperature := 0, candidate_count := 1, top_p := 0, prompt := none,
                      messages := "Hi" }] rfl (by rfl)).2.1⟩

theorem shapeOk_palm (n : Nat) (r : ChatResponse)
    (hlen : r.candidates.length = n) :
    shapeOk n (if n > 1 then Sum.inr (r.candidates.map (fun c => c.getD "I don\x27t know."))
               else Sum.inl (r.last.getD "I don\x27t know.")) = true := by
  by_cases hn : n > 1
  · rw [if_pos hn]
    unfold shapeOk
    rw [if_pos hn]
    simp [hlen]
  · rw [if_neg hn]
    unfold shapeOk
    rw [if_neg hn]
    by_cases h1 : n = 1
    · rw [if_pos h1]
    · rw [if_neg h1]

theorem shapeOk_of_length (n : Nat) (completions : List String)
    (hcl : completions.length = n) :
    shapeOk n (if completions.length = 1 then Sum.inl (completions.getD 0 "")
               else Sum.inr completions) = true := by
  by_cases hn : n > 1
  · have hne : ¬ completions.length = 1 := by omega
    rw [if_neg hne]
    unfold shapeOk
    rw [if_pos hn]
    simp [hcl]
  · by_cases h1 : n = 1
    · have hone : completions.length = 1 := by omega
      rw [if_pos hone]
      unfold shapeOk
      rw [if_neg hn, if_pos h1]
    · have hne : ¬ completions.length = 1 := by omega
      rw [if_neg hne]
      unfold shapeOk
      rw [if_neg hn, if_neg h1]

/-- C1: result-shape contract of every successful completion call, on the
assumption that the backend honours the requested candidate count.
First conjunct: `GooglePalmChatCompletion.complete_chat_async`; second:
`GooglePalmChatCompletion.complete_async`; third:
`HuggingFaceTextCompletion.complete_async`.  In each case, when
`number_of_responses > 1` the result is a list of exactly that many
strings, and when it equals 1 the result is a single string, never a
list (`shapeOk`). -/
theorem C1_result_shape :
    (∀ (be : PalmBackend) (st : GPState) (messages : List (String × String))
        (rs : ChatRequestSettings) (context? : Option String)
        (examples prompt : Option Unit) (r : ChatResponse) (st2 : GPState)
        (tr : List PalmCall) (res : CompletionResult) (st3 : GPState)
        (tr3 : List PalmCall),
      GooglePalmChatCompletion.send_chat_request be st messages (some rs)
        context? examples prompt = (Except.ok r, st2, tr) →
      r.candidates.length = rs.number_of_responses →
      GooglePalmChatCompletion.complete_chat_async be st messages rs
        context? examples prompt = (Except.ok res, st3, tr3) →
      shapeOk rs.number_of_responses res = true) ∧
    (∀ (be : PalmBackend) (st : GPState) (prompt : String)
        (rs : CompleteRequestSettings) (r : ChatResponse) (st2 : GPState)
        (tr : List PalmCall) (res : CompletionResult) (st3 : GPState)
        (tr3 : List PalmCall),
      GooglePalmChatCompletion.send_chat_request be st [("user", prompt)]
        (some (toChatSettings rs)) none none none = (Except.ok r, st2, tr) →
      r.candidates.length = rs.number_of_responses →
      GooglePalmChatCompletion.complete_async be st prompt rs
        = (Except.ok res, st3, tr3) →
      shapeOk rs.number_of_responses res = true) ∧
    (∀ (be : HFBackend) (st : HFState) (prompt : String)
        (rs : CompleteRequestSettings) (results : List HFCandidate)
        (res : CompletionResult) (tr : List HFCall),
      be.generate (hfArgs prompt rs) = Except.ok results →
      results.length = rs.number_of_responses →
      HuggingFaceTextCompletion.complete_async be st prompt rs
        = (Except.ok res, tr) →
      shapeOk rs.number_of_responses res = true) := by
  refine ⟨?_, ?_, ?_⟩
  · intro be st messages rs context? examples prompt r st2 tr res st3 tr3 hs hlen hc
    rw [complete_chat_async_of_send be st messages rs context? examples prompt
      r st2 tr hs] at hc
    simp only [Prod.mk.injEq, Except.ok.injEq] at hc
    rw [← hc.1]
    exact shapeOk_palm rs.number_of_responses r hlen
  · intro be st prompt rs r st2 tr res st3 tr3 hs hlen hc
    rw [complete_async_of_send be st prompt rs r st2 tr hs] at hc
    simp only [Prod.mk.injEq, Except.ok.injEq] at hc
    rw [← hc.1]
    exact shapeOk_palm rs.number_of_responses r hlen
  · intro be st prompt rs results res tr hg hlen hc
    unfold HuggingFaceTextCompletion.complete_async at hc
    rw [hg] at hc
    dsimp only at hc
    by_cases ht : st.task = "summarization"
    · rw [if_pos ht] at hc
      rcases he : extractTexts "summary_text" (fun cand => cand.summary_text) results
        with e | completions
      · rw [he] at hc; simp at hc
      · rw [he] at hc
        simp only [Prod.mk.injEq, Except.ok.injEq] at hc
        rw [← hc.1]
        exact shapeOk_of_length rs.number_of_responses completions
          ((extractTexts_length _ _ results completions he).trans hlen)
    · rw [if_neg ht] at hc
      rcases he : extractTexts "generated_text" (fun cand => cand.generated_text) results
        with e | completions
      · rw [he] at hc; simp at hc
      · rw [he] at hc
        simp only [Prod.mk.injEq, Except.ok.injEq] at hc
        rw [← hc.1]
        exact shapeOk_of_length rs.number_of_responses completions
          ((extractTexts_length _ _ results completions he).trans hlen)

/-- Witness for C1 on the Hugging Face adapter with two requested
responses: the result is a two-element list. -/
theorem C1_result_shape_witness :
    shapeOk cCSettings2.number_of_responses (Sum.inr ["gen", "gen"]) = true :=
  C1_result_shape.2.2 cHFBackend cHFState "p" cCSettings2
    [{ summary_text := some "sum", generated_text := some "gen" },
     { summary_text := some "sum", generated_text := some "gen" }]
    (Sum.inr ["gen", "gen"])
    [HFCall.generate (hfArgs "p" cCSettings2)] (by rfl) (by rfl) (by rfl)

/-- C6: candidate-to-text reconciliation of successful PaLM completions.
With `number_of_responses > 1` the result maps each backend candidate, in
order, to its output text with the literal fallback substituted for an
absent output; with `number_of_responses = 1` and a sole candidate whose
text agrees with `response.last`, the result is that single candidate
text, with the fallback substituted when it is absent.  Every element is
produced by `Option.getD`, so the result is never empty-valued.  First
conjunct: `complete_chat_async`; second conjunct: `complete_async`. -/
theorem C6_candidate_fallback :
    (∀ (be : PalmBackend) (st : GPState) (messages : List (String × String))
        (rs : ChatRequestSettings) (context? : Option String)
        (examples prompt : Option Unit) (r : ChatResponse) (st2 : GPState)
        (tr : List PalmCall),
      GooglePalmChatCompletion.send_chat_request be st messages (some rs)
        context? examples prompt = (Except.ok r, st2, tr) →
      (rs.number_of_responses > 1 →
        GooglePalmChatCompletion.complete_chat_async be st messages rs
          context? examples prompt
          = (Except.ok (Sum.inr (r.candidates.map (fun c => c.getD "I don\x27t know."))),
             st2, tr)) ∧
      (∀ c, rs.number_of_responses = 1 → r.candidates = [c] → r.last = c →
        GooglePalmChatCompletion.complete_chat_async be st messages rs
          context? examples prompt
          = (Except.ok (Sum.inl (c.getD "I don\x27t know.")), st2, tr))) ∧
    (∀ (be : PalmBackend) (st : GPState) (prompt : String)
        (rs : CompleteRequestSettings) (r : ChatResponse) (st2 : GPState)
        (tr : List PalmCall),
      GooglePalmChatCompletion.send_chat_request be st [("user", prompt)]
        (some (toChatSettings rs)) none none none = (Except.ok r, st2, tr) →
      (rs.number_of_responses > 1 →
        GooglePalmChatCompletion.complete_async be st prompt rs
          = (Except.ok (Sum.inr (r.candidates.map (fun c => c.getD "I don\x27t know."))),
             st2, tr)) ∧
      (∀ c, rs.number_of_responses = 1 → r.candidates = [c] → r.last = c →
        GooglePalmChatCompletion.complete_async be st prompt rs
          = (Except.ok (Sum.inl (c.getD "I don\x27t know.")), st2, tr))) := by
  constructor
  · intro be st messages rs context? examples prompt r st2 tr hs
    have h := complete_chat_async_of_send be st messages rs context? examples prompt
      r st2 tr hs
    constructor
    · intro hn
      rw [h, if_pos hn]
    · intro c h1 hcand hlast
      rw [h, if_neg (by omega), hlast]
  · intro be st prompt rs r st2 tr hs
    have h := complete_async_of_send be st prompt rs r st2 tr hs
    constructor
    · intro hn
      rw [h, if_pos hn]
    · intro c h1 hcand hlast
      rw [h, if_neg (by omega), hlast]

/-- Witness for C6 at the single-response chat path: the sole candidate
text "pong" is returned as a single string. -/
theorem C6_candidate_fallback_witness :
    GooglePalmChatCompletion.complete_chat_async cOkBackend cFresh [("user", "Hi")]
        cSettings1 none none none
      = (Except.ok (Sum.inl ((some "pong").getD "I don\x27t know.")),
         { api_key := "k", ai_model_id := "m",
           message_history := some { candidates := [some "pong"], last := some "pong" } },
         [PalmCall.configure "k",
          PalmCall.chat (palmChatArgsOf cFresh [("user", "Hi")] cSettings1 none none none)]) :=
  (C6_candidate_fallback.1 cOkBackend cFresh [("user", "Hi")] cSettings1 none none none
    { candidates := [some "pong"], last := some "pong" }
    { api_key := "k", ai_model_id := "m",
      message_history := some { candidates := [some "pong"], last := some "pong" } }
    [PalmCall.configure "k",
     PalmCall.chat (palmChatArgsOf cFresh [("user", "Hi")] cSettings1 none none none)]
    (by rfl)).2 (some "pong") rfl rfl rfl

def cSettings0 : ChatRequestSettings := ⟨0, 0, 0, 0, 0, 1, []⟩

theorem hf_complete_async_trace (be : HFBackend) (st : HFState)
    (prompt : String) (rs : CompleteRequestSettings) :
    (HuggingFaceTextCompletion.complete_async be st prompt rs).2
      = [HFCall.generate (hfArgs prompt rs)] := by
  unfold HuggingFaceTextCompletion.complete_async
  rcases hg : be.generate (hfArgs prompt rs) with e | results
  · rfl
  · dsimp only
    by_cases ht : st.task = "summarization"
    · rw [if_pos ht]
      rcases he : extractTexts "summary_text" (fun cand => cand.summary_text) results
        with e | completions
      · rfl
      · rfl
    · rw [if_neg ht]
      rcases he : extractTexts "generated_text" (fun cand => cand.generated_text) results
        with e | completions
      · rfl
      · rfl

/-- Counterexample to C3 as stated: on `HuggingFaceTextCompletion` a
request with `max_tokens = 0` does not fail with an InvalidRequest adapter
error before any backend call; the pipeline call is performed (the trace
holds the generate call, with max_tokens passed straight through) and the
call succeeds. -/
theorem C3_counterexample :
    HuggingFaceTextCompletion.complete_async cHFBackend cHFState "p" cCSettings0
      = (Except.ok (Sum.inl "gen"), [HFCall.generate (hfArgs "p" cCSettings0)]) ∧
    cCSettings0.max_tokens = 0 :=
  ⟨by rfl, by rfl⟩

/-- C3 (amended): on `GooglePalmChatCompletion`, a request with
`max_tokens < 1` fails with an InvalidRequest adapter error before any
backend call (empty trace, state unchanged); `HuggingFaceTextCompletion`
performs no `max_tokens` validation at all — `complete_async` always
issues exactly its one pipeline call, with `max_tokens` passed through
unchecked as `max_new_tokens`. -/
theorem C3_max_tokens_validation :
    (∀ (be : PalmBackend) (st : GPState) (messages : List (String × String))
        (rs : ChatRequestSettings) (context? : Option String)
        (examples prompt : Option Unit),
      rs.max_tokens < 1 →
      GooglePalmChatCompletion.send_chat_request be st messages (some rs)
          context? examples prompt
        = (Except.error (AdapterError.aiException ErrorCodes.InvalidRequest
            ("The max tokens must be greater than 0, but was " ++ toString rs.max_tokens)
            none), st, [])) ∧
    (∀ (be : HFBackend) (st : HFState) (prompt : String)
        (rs : CompleteRequestSettings),
      (HuggingFaceTextCompletion.complete_async be st prompt rs).2
        = [HFCall.generate (hfArgs prompt rs)] ∧
      (hfArgs prompt rs).generation_config.max_new_tokens = rs.max_tokens) := by
  constructor
  · intro be st messages rs context? examples prompt hmax
    unfold GooglePalmChatCompletion.send_chat_request
    dsimp only
    rw [if_pos hmax]
  · intro be st prompt rs
    exact ⟨hf_complete_async_trace be st prompt rs, rfl⟩

/-- Witness for C3 (amended) at `max_tokens = 0` on the PaLM adapter. -/
theorem C3_max_tokens_validation_witness :
    cSettings0.max_tokens < 1 ∧
    GooglePalmChatCompletion.send_chat_request cOkBackend cFresh [("user", "Hi")]
        (some cSettings0) none none none
      = (Except.error (AdapterError.aiException ErrorCodes.InvalidRequest
          ("The max tokens must be greater than 0, but was " ++ toString cSettings0.max_tokens)
          none), cFresh, []) :=
  ⟨by decide,
   C3_max_tokens_validation.1 cOkBackend cFresh [("user", "Hi")] cSettings0
     none none none (by decide)⟩

/-- The closed set of exception shapes `_send_chat_request` can propagate:
built-in ValueError for absent settings, InvalidRequest AIException
without cause from validation, the built-in PermissionError wrapping a
configure failure, and the ServiceError AIException wrapping a generation
failure. -/
def palmRaisedShape : AdapterError → Bool
  | AdapterError.valueError _ => true
  | AdapterError.aiException ErrorCodes.InvalidRequest _ none => true
  | AdapterError.permissionError _ _ => true
  | AdapterError.aiException ErrorCodes.ServiceError _ (some _) => true
  | _ => false

/-- Recognizer for the Hugging Face wrapper exception
`AIException("Hugging Face completion failed", e)`. -/
def hfWrappedShape : AdapterError → Bool
  | AdapterError.aiExceptionMsgFirst "Hugging Face completion failed" _ => true
  | _ => false

/-- Counterexample to C4 as stated: when the backend raises during the
configuration phase (`palm.configure`), the PaLM adapter propagates the
built-in PermissionError — a non-adapter exception type without a
service-failure kind — not the adapter-level AIException. -/
theorem C4_counterexample :
    GooglePalmChatCompletion.send_chat_request cBadKeyBackend cFresh [("user", "Hi")]
        (some cSettings1) none none none
      = (Except.error (AdapterError.permissionError
          "Google PaLM service failed to configure. Invalid API key provided."
          { msg := "bad key" }),
         cFresh, [PalmCall.configure "k"]) ∧
    palmRaisedShape (AdapterError.permissionError
      "Google PaLM service failed to configure. Invalid API key provided."
      { msg := "bad key" }) = true ∧
    hfWrappedShape (AdapterError.permissionError
      "Google PaLM service failed to configure. Invalid API key provided."
      { msg := "bad key" }) = false :=
  ⟨by rfl, by rfl, by rfl⟩

/-- The exception shapes `complete_stream_async` of the Hugging Face
adapter can propagate: the wrapper AIException around a backend failure,
or the InvalidConfiguration AIException of the multi-response check. -/
def hfStreamRaisedShape : AdapterError → Bool
  | AdapterError.aiExceptionMsgFirst "Hugging Face completion failed" _ => true
  | AdapterError.aiException ErrorCodes.InvalidConfiguration _ none => true
  | _ => false

/-- C4 (amended): exception mapping of the two adapters.  Generation-phase
backend failures are wrapped: PaLM raises the adapter-level AIException
with the ServiceError kind and the original cause, and Hugging Face raises
`AIException("Hugging Face completion failed", e)` (cause present, but the
message occupies the error-code position).  A configuration-phase failure
in PaLM, however, is re-raised as the built-in PermissionError carrying
the cause, not as the adapter-level error — the shape-classifier conjuncts
show every propagated exception falls in these closed sets, and the last
conjunct pins the configure-failure case exactly. -/
theorem C4_failure_wrapping :
    (∀ (be : PalmBackend) (st : GPState) (messages : List (String × String))
        (settings? : Option ChatRequestSettings) (context? : Option String)
        (examples prompt : Option Unit) (e : AdapterError),
      (GooglePalmChatCompletion.send_chat_request be st messages settings?
        context? examples prompt).1 = Except.error e →
      palmRaisedShape e = true) ∧
    (∀ (be : HFBackend) (st : HFState) (prompt : String)
        (rs : CompleteRequestSettings) (e : AdapterError),
      (HuggingFaceTextCompletion.complete_async be st prompt rs).1 = Except.error e →
      hfWrappedShape e = true) ∧
    (∀ (be : HFBackend) (st : HFState) (prompt : String)
        (rs : CompleteRequestSettings) (e : AdapterError),
      (HuggingFaceTextCompletion.complete_stream_async be st prompt rs).1
        = Except.error e →
      hfStreamRaisedShape e = true) ∧
    (∀ (be : PalmBackend) (st : GPState) (messages : List (String × String))
        (rs : ChatRequestSettings) (context? : Option String)
        (examples prompt : Option Unit) (ex : BackendExn),
      ¬ rs.max_tokens < 1 → ¬ messages.length ≤ 0 →
      (messages.getLastD ("", "")).1 = "user" →
      be.configure st.api_key = Except.error ex →
      GooglePalmChatCompletion.send_chat_request be st messages (some rs)
          context? examples prompt
        = (Except.error (AdapterError.permissionError
            "Google PaLM service failed to configure. Invalid API key provided." ex),
           st, [PalmCall.configure st.api_key])) := by
  refine ⟨?_, ?_, ?_, ?_⟩
  · intro be st messages settings? context? examples prompt e h
    unfold GooglePalmChatCompletion.send_chat_request at h
    rcases settings? with _ | rs
    · dsimp only at h
      injection h with h2
      rw [← h2]; rfl
    · dsimp only at h
      by_cases hmax : rs.max_tokens < 1
      · rw [if_pos hmax] at h
        dsimp only at h
        injection h with h2
        rw [← h2]; rfl
      · rw [if_neg hmax] at h
        by_cases hlen : messages.length ≤ 0
        · rw [if_pos hlen] at h
          dsimp only at h
          injection h with h2
          rw [← h2]; rfl
        · rw [if_neg hlen] at h
          by_cases hrole : (messages.getLastD ("", "")).1 ≠ "user"
          · rw [if_pos hrole] at h
            dsimp only at h
            injection h with h2
            rw [← h2]; rfl
          · rw [if_neg hrole] at h
            rcases hconf : be.configure st.api_key with ex | u
            · rw [hconf] at h
              dsimp only at h
              injection h with h2
              rw [← h2]; rfl
            · rw [hconf] at h
              rcases hist : st.message_history with _ | hh
              · rw [hist] at h
                dsimp only at h
                rcases hchat : be.chat (palmChatArgsOf st messages rs context? examples prompt)
                  with ex2 | r2
                · rw [hchat] at h
                  dsimp only at h
                  injection h with h2
                  rw [← h2]; rfl
                · rw [hchat] at h
                  dsimp only at h
                  simp at h
              · rw [hist] at h
                dsimp only at h
                rcases hreply : be.reply hh (messages.getLastD ("", "")).2 with ex2 | r2
                · rw [hreply] at h
                  dsimp only at h
                  injection h with h2
                  rw [← h2]; rfl
                · rw [hreply] at h
                  dsimp only at h
                  simp at h
  · intro be st prompt rs e h
    unfold HuggingFaceTextCompletion.complete_async at h
    rcases hg : be.generate (hfArgs prompt rs) with ex | results
    · rw [hg] at h
      dsimp only at h
      injection h with h2
      rw [← h2]; rfl
    · rw [hg] at h
      dsimp only at h
      by_cases ht : st.task = "summarization"
      · rw [if_pos ht] at h
        rcases he : extractTexts "summary_text" (fun cand => cand.summary_text) results
          with ex2 | completions
        · rw [he] at h
          dsimp only at h
          injection h with h2
          rw [← h2]; rfl
        · rw [he] at h
          dsimp only at h
          simp at h
      · rw [if_neg ht] at h
        rcases he : extractTexts "generated_text" (fun cand => cand.generated_text) results
          with ex2 | completions
        · rw [he] at h
          dsimp only at h
          injection h with h2
          rw [← h2]; rfl
        · rw [he] at h
          dsimp only at h
          simp at h
  · intro be st prompt rs e h
    unfold HuggingFaceTextCompletion.complete_stream_async at h
    by_cases hn : rs.number_of_responses > 1
    · rw [if_pos hn] at h
      dsimp only at h
      injection h with h2
      rw [← h2]; rfl
    · rw [if_neg hn] at h
      rcases htok : be.tokenizer_from_pretrained st.ai_model_id with ex | u
      · rw [htok] at h
        dsimp only at h
        injection h with h2
        rw [← h2]; rfl
      · rw [htok] at h
        dsimp only at h
        rcases hstr : be.stream (hfArgs prompt rs) with ex2 | chunks
        · rw [hstr] at h
          dsimp only at h
          injection h with h2
          rw [← h2]; rfl
        · rw [hstr] at h
          dsimp only at h
          simp at h
  · intro be st messages rs context? examples prompt ex hmax hlen hrole hconf
    exact send_chat_request_conf_err be st messages rs context? examples prompt ex
      hmax hlen hrole hconf

/-- Witness for C4 (amended): a generation-phase failure on a fresh
adapter is classified as an allowed wrapped shape. -/
theorem C4_failure_wrapping_witness :
    palmRaisedShape (AdapterError.aiException ErrorCodes.ServiceError
      "Google PaLM service failed to complete the prompt" (some { msg := "boom" })) = true :=
  C4_failure_wrapping.1 cFailChatBackend cFresh [("user", "Hi")] (some cSettings1)
    none none none
    (AdapterError.aiException ErrorCodes.ServiceError
      "Google PaLM service failed to complete the prompt" (some { msg := "boom" }))
    (by rfl)
